import Mathlib

/-!
Verification development for the H5P editor library-selector widget
(`src/scripts/h5peditor-library.js`, `ns.Library`).

The selector state is embedded shallowly: the mutable JS object `this.params`
becomes an association list of own enumerable keys in insertion order
(`PMap`), held in a single cell whose address `paramsAddr` models the
reference identity of the object (operations write through the reference and
never rebind it).  DOM state that the code reads or writes (the select
control, the copy/paste buttons, the `libwrap` class) is an explicit `UI`
record.  Asynchronous steps are split exactly as the source splits them: the
synchronous part of `loadLibrary` issues a `FetchReq`, and the anonymous
schema callback (lines 376-427) is `loadLibraryCallback`.  Host functions
that live outside this file (`H5P.createUUID`, `ns.enableMetadata`, the form
renderer, the metadata-form constructor) are passed in as parameters.
-/

namespace H5PLib

/-- A JS value as far as this component inspects values: strings (library
ubernames, uuids), the empty object literal written by the code, and opaque
payload data that is only ever copied around. -/
inductive JsVal where
  | str (s : String)
  | emptyObj
  | blob (n : Nat)
deriving DecidableEq, Repr

/-- The only exception kind this code can raise: a TypeError from
dereferencing `undefined`. -/
inductive JsErr where
  | typeError
deriving DecidableEq, Repr

/-- Own enumerable properties of a JS object, in insertion order. -/
abbrev PMap := List (String × JsVal)

/-- Property read (`obj[k]`), `none` for `undefined`. -/
def pmLookup (k : String) : PMap → Option JsVal
  | [] => none
  | (k', v) :: t => if k' = k then some v else pmLookup k t

/-- `delete obj[k]`. -/
def pmDelete (k : String) : PMap → PMap
  | [] => []
  | (k', v) :: t => if k' = k then pmDelete k t else (k', v) :: pmDelete k t

/-- `obj[k] = v`: updates an existing property in place (keeping its
position) or appends a new one, as JS property order does. -/
def pmSet (k : String) (v : JsVal) : PMap → PMap
  | [] => [(k, v)]
  | (k', v') :: t => if k' = k then (k, v) :: t else (k', v') :: pmSet k v t

/-- JS truthiness of a possibly-undefined value (`if (x)`). -/
def jsTruthy : Option JsVal → Bool
  | none => false
  | some (.str s) => s ≠ ""
  | some .emptyObj => true
  | some (.blob _) => true

/-- Library metadata settings object (lines 447-450). -/
structure MetaSettings where
  disable : Bool
  disableExtraTitleField : Bool
deriving DecidableEq, Repr

/-- One installed-library descriptor as delivered by the library registry. -/
structure LibDesc where
  uberName : String
  title : Option String
  restricted : Option Bool
  metadata : Option MetaSettings
deriving DecidableEq, Repr

/-- A child field instance, as far as this component observes it: the result
of its `validate()` and whether its rendered form is still attached. -/
structure Child where
  valid : Bool
  rendered : Bool
deriving DecidableEq, Repr

/-- The metadata sub-form: the code only reads its `children`. -/
structure MForm where
  mchildren : Option (List Child)
deriving DecidableEq, Repr

/-- The clipboard value (`H5P.getClipboard()`): the code only reads its
`generic` payload. -/
structure Clip where
  generic : Option PMap
deriving DecidableEq, Repr

/-- One `<option>` of the select control (`ns.createOption`). -/
structure OptionEntry where
  value : String
  text : Option String
  selected : Bool
deriving DecidableEq, Repr

/-- A schema fetch issued through `ns.loadLibrary` (line 376), recorded
instead of run: its callback is `loadLibraryCallback`. -/
structure FetchReq where
  name : String
  preserve : Bool
deriving DecidableEq, Repr

/-- The data state of one `ns.Library` instance.  `paramsAddr` is the
reference identity of `this.params`; `paramsObj` is the content of the object
at that reference.  `libraryName` models the property `self.libraryName` read
at line 441, which no code ever assigns. -/
structure LibState where
  paramsObj : PMap
  paramsAddr : Nat
  currentLibrary : Option String
  libraries : Option (List LibDesc)
  changes : List Nat
  runChangeCallback : Bool
  children : Option (List Child)
  metadataForm : Option MForm
  fieldOptional : Bool
  libraryName : Option String
deriving DecidableEq, Repr

/-- DOM state the code reads or writes.  `copyButton` is `this.$copyButton`:
`none` when it was never assigned (no `window.localStorage`, line 156), and
`some inDom` for a jQuery set that is nonempty iff the buttons were actually
added to the markup (line 144).  `$pasteButton` is assigned together with
`$copyButton`, so one field stands for the presence of both. -/
structure UI where
  hasLocalStorage : Bool
  copyButton : Option Bool
  copyDisabled : Bool
  pasteDisabled : Bool
  selectVal : Option JsVal
  libwrapClass : String
  options : List OptionEntry
  selectHidden : Bool
deriving DecidableEq, Repr

/-- Constructor state (lines 20-44): `this.params` defaults to
`{params: {}}` when the field had no value yet; `this.changes = []`;
everything else starts unset. -/
def initState (params : Option PMap) (addr : Nat) (fieldOptional : Bool) : LibState :=
  { paramsObj := params.getD [("params", JsVal.emptyObj)]
    paramsAddr := addr
    currentLibrary := none
    libraries := none
    changes := []
    runChangeCallback := false
    children := none
    metadataForm := none
    fieldOptional := fieldOptional
    libraryName := none }

/-- UI state right after `appendTo` (lines 85-194): `$copyButton` is assigned
iff `window.localStorage` is available; the buttons are in the markup iff
additionally copy/paste is enabled for the ancestor content type
(`enableCopyAndPaste`, line 144). -/
def appendToUI (hasLS enabled : Bool) : UI :=
  { hasLocalStorage := hasLS
    copyButton := if hasLS then some (hasLS && enabled) else none
    copyDisabled := false
    pasteDisabled := true
    selectVal := none
    libwrapClass := "libwrap"
    options := [{ value := "-", text := some "Loading...", selected := false }]
    selectHidden := false }

/-- `$copyButton.toggleClass(disabled, b)`: a TypeError when the button was
never assigned; a no-op on an empty jQuery set. -/
def toggleCopyDisabled (b : Bool) (ui : UI) : Except JsErr UI :=
  match ui.copyButton with
  | none => .error .typeError
  | some inDom => .ok (if inDom then { ui with copyDisabled := b } else ui)

/-- `$pasteButton.toggleClass(disabled, b)`; the paste button exists exactly
when the copy button does. -/
def togglePasteDisabled (b : Bool) (ui : UI) : Except JsErr UI :=
  match ui.copyButton with
  | none => .error .typeError
  | some inDom => .ok (if inDom then { ui with pasteDisabled := b } else ui)

/-- `canPaste` (lines 202-212): the clipboard must hold a `generic` payload
whose `library` property is string-equal to the `uberName` of one of
`this.libraries`; iterating `this.libraries` throws when the list has not
been loaded. -/
def canPaste (clip : Option Clip) (s : LibState) : Except JsErr Bool :=
  match clip with
  | none => .ok false
  | some c =>
    match c.generic with
    | none => .ok false
    | some g =>
      match s.libraries with
      | none => .error .typeError
      | some libs =>
        .ok (libs.any fun d => decide (pmLookup "library" g = some (JsVal.str d.uberName)))

/-- Marks each child field instance as no longer rendered.  Modelled from the
spec: `ns.removeChildren` (h5peditor core, not under src/) tears down the
child field instances of the list it is given. -/
def derenderAll (cs : List Child) : List Child :=
  cs.map fun c => { c with rendered := false }

/-- Lines 533-535: tear down the metadata sub-form children, when present. -/
def mfDerender : Option MForm → Option MForm
  | some ⟨some mcs⟩ => some ⟨some (derenderAll mcs)⟩
  | x => x

/-- `removeChildren` (lines 532-579).  The common-fields bookkeeping on the
ancestor form (lines 549-576) acts on host state outside this component and
is not part of the modelled state; the metadata wrapper removal (542-547) is
DOM only. -/
def removeChildren (s : LibState) : LibState :=
  if s.currentLibrary = some "-" ∨ s.children = none then
    { s with metadataForm := mfDerender s.metadataForm }
  else
    { s with metadataForm := mfDerender s.metadataForm, children := s.children.map derenderAll }

/-- JS `String.prototype.replace` with string arguments: replaces only the
first occurrence. -/
def jsReplaceOnce (s pat rep : String) : String :=
  match s.splitOn pat with
  | [] => s
  | [x] => x
  | x :: rest => x ++ rep ++ String.intercalate pat rest

/-- Line 374: `libraryName.split(' ')[0].toLowerCase().replace('.', '-') +
'-editor'`. -/
def editorCssClass (libraryName : String) : String :=
  jsReplaceOnce ((libraryName.splitOn " ").headD "").toLower "." "-" ++ "-editor"

/-- The synchronous part of `loadLibrary` (lines 358-374): tear down current
children; for the none sentinel delete the library-related keys in place and
toggle the copy button; otherwise set the wrapper class and issue the schema
fetch (its callback is `loadLibraryCallback`). -/
def loadLibrary (libraryName : String) (preserveParams : Bool) (s : LibState) (ui : UI) :
    LibState × UI × Option JsErr × Option FetchReq :=
  let s1 := removeChildren s
  if libraryName = "-" then
    let p := pmDelete "metadata" (pmDelete "subContentId" (pmDelete "params"
      (pmDelete "library" s1.paramsObj)))
    let s2 := { s1 with paramsObj := p }
    let ui1 := { ui with libwrapClass := "libwrap" }
    match toggleCopyDisabled true ui1 with
    | .error e => (s2, ui1, some e, none)
    | .ok ui2 => (s2, ui2, none, none)
  else
    let ui1 := { ui with libwrapClass := "libwrap " ++ editorCssClass libraryName }
    (s1, ui1, none, some { name := libraryName, preserve := preserveParams })

/-- `loadLibrary` applied to a possibly-undefined, possibly non-string
argument (lines 270 and 347 pass `this.params.library` or
`clipboard.generic.library` unchecked): `removeChildren` still runs, then
line 374 calls `.split` on a non-string and throws. -/
def loadLibraryV (v : Option JsVal) (preserveParams : Bool) (s : LibState) (ui : UI) :
    LibState × UI × Option JsErr × Option FetchReq :=
  match v with
  | some (.str nm) => loadLibrary nm preserveParams s ui
  | _ => (removeChildren s, ui, some .typeError, none)

/-- `findLibraryMetadataSettings` (lines 436-451).  The loop compares each
`uberName` against `self.libraryName`, a property never assigned anywhere in
the component; on a match it would assign the undeclared global `library`
(line 442) and never the local `metadata`, so `metadata` is still undefined
at the return and the default object is produced.  `em` is the host policy
`ns.enableMetadata`. -/
def findLibraryMetadataSettings (em : String → Bool) (libraryName : String) (s : LibState) :
    Except JsErr MetaSettings :=
  match s.libraries with
  | none => .error .typeError
  | some libs =>
    let _matched := libs.find? fun d => decide (s.libraryName = some d.uberName)
    let metadata : Option MetaSettings := none
    .ok (metadata.getD { disable := !em libraryName, disableExtraTitleField := false })

/-- The callbacks fired by a `change()` run (lines 466-477): each registered
callback id paired with the descriptor whose `uberName` equals
`this.currentLibrary` (or `undefined` when none matches). -/
def runChangesWith (libs : List LibDesc) (s : LibState) : List (Nat × Option LibDesc) :=
  s.changes.map fun c => (c, libs.find? fun d => decide (s.currentLibrary = some d.uberName))

/-- `change` (lines 459-479): with a callback, defer it; with none, look the
current library up in `this.libraries` (throws when the list is not loaded)
and invoke every deferred callback with it, in registration order. -/
def change (callback : Option Nat) (s : LibState) :
    Except JsErr (LibState × List (Nat × Option LibDesc)) :=
  match callback with
  | some c => .ok ({ s with changes := s.changes ++ [c] }, [])
  | none =>
    match s.libraries with
    | none => .error .typeError
    | some libs => .ok (s, runChangesWith libs s)

/-- Lines 377-391 of the schema callback, as a transformation of the params
object: record the library, reset `params`/`metadata` and drop the old
`subContentId` unless preserving, then make sure a `subContentId` and a
`metadata` object exist (`uuid` is the `H5P.createUUID()` result). -/
def cbParams (libraryName : String) (preserveParams : Bool) (uuid : String) (p0 : PMap) : PMap :=
  let p1 := pmSet "library" (JsVal.str libraryName) p0
  let p2 := if !preserveParams then
      pmSet "metadata" JsVal.emptyObj (pmSet "params" JsVal.emptyObj
        (pmDelete "subContentId" p1))
    else p1
  let p3 := if pmLookup "subContentId" p2 = none then
      pmSet "subContentId" (JsVal.str uuid) p2
    else p2
  if pmLookup "metadata" p3 = none then pmSet "metadata" JsVal.emptyObj p3 else p3

/-- The anonymous schema-fetch callback of `loadLibrary` (lines 376-427).
`uuid` is the `H5P.createUUID()` result; `newForm` is the host-constructed
metadata sub-form (line 399); `newChildren` are the child instances the form
renderer `ns.processSemanticsChunk` builds and attaches (line 405, modelled
from the spec: the Form Renderer appends child field instances to
`parentContext.children`).  Lines 393-394 and 410-419 are DOM only. -/
def loadLibraryCallback (em : String → Bool) (libraryName : String) (preserveParams : Bool)
    (uuid : String) (newForm : MForm) (newChildren : List Child)
    (s : LibState) (ui : UI) :
    LibState × UI × Option JsErr × List (Nat × Option LibDesc) :=
  let s1 := { s with
    currentLibrary := some libraryName,
    paramsObj := cbParams libraryName preserveParams uuid s.paramsObj }
  match findLibraryMetadataSettings em libraryName s1 with
  | .error e => (s1, ui, some e, [])
  | .ok ms =>
    let s2 := { s1 with metadataForm := if !ms.disable then some newForm else none }
    let s3 := { s2 with children := some newChildren }
    match (if ui.hasLocalStorage then toggleCopyDisabled false ui else .ok ui) with
    | .error e => (s3, ui, some e, [])
    | .ok ui1 =>
      match s3.libraries with
      | some libs => (s3, ui1, none, runChangesWith libs s3)
      | none => ({ s3 with runChangeCallback := true }, ui1, none, [])

/-- The condition of lines 308-309 for rendering a descriptor as an option:
its `uberName` equals `this.params.library`, or its title is defined and it
is not restricted. -/
def optionCond (selVal : Option JsVal) (d : LibDesc) : Bool :=
  decide (selVal = some (JsVal.str d.uberName)) ||
    (d.title.isSome && (decide (d.restricted = none) || decide (d.restricted = some false)))

/-- `ns.createOption(library.uberName, library.title, selected)` (line 310). -/
def mkOption (selVal : Option JsVal) (d : LibDesc) : OptionEntry :=
  { value := d.uberName
    text := d.title
    selected := decide (selVal = some (JsVal.str d.uberName)) }

/-- `ns.createOption('-', '-')` (line 305). -/
def noneOption : OptionEntry := { value := "-", text := some "-", selected := false }

/-- One librariesLoaded result: final state, UI, change callbacks fired,
schema fetches issued, and whether a TypeError escaped. -/
structure LLR where
  s : LibState
  ui : UI
  fired : List (Nat × Option LibDesc)
  fetches : List FetchReq
  err : Option JsErr
deriving DecidableEq, Repr

/-- Lines 340-348, the tail of `librariesLoaded` shared by all its branches;
here `this.libraries = some libList` already holds.  If the run-once-ready
flag is set, run `change()` and clear it; then, when `this.params.library` is
defined, reload it with `preserveParams = true`. -/
def llTail (libList : List LibDesc) (s2 : LibState) (ui2 : UI) (fet : List FetchReq) : LLR :=
  let fired := if s2.runChangeCallback then runChangesWith libList s2 else []
  let s3 := if s2.runChangeCallback then { s2 with runChangeCallback := false } else s2
  match pmLookup "library" s3.paramsObj with
  | none => { s := s3, ui := ui2, fired := fired, fetches := fet, err := none }
  | some v =>
    let r := loadLibraryV (some v) true s3 ui2
    { s := r.1, ui := r.2.1, fired := fired, fetches := fet ++ r.2.2.2.toList, err := r.2.2.1 }

/-- `librariesLoaded` (lines 301-349): record the descriptor list, rebuild
the option markup, auto-load a singleton list (hiding the controls), or
re-enable the paste button when the clipboard is pastable; then run deferred
change callbacks if flagged and reload the default library.  Lines 314-328
only wire the DOM change handler. -/
def librariesLoaded (libList : List LibDesc) (clip : Option Clip) (s : LibState) (ui : UI) :
    LLR :=
  let s1 := { s with libraries := some libList }
  let selVal := pmLookup "library" s1.paramsObj
  let opts := noneOption ::
    libList.filterMap fun d => if optionCond selVal d then some (mkOption selVal d) else none
  let ui1 := { ui with options := opts }
  if libList.length = 1 then
    let ui2 := { ui1 with selectHidden := true }
    let r := loadLibrary (opts.getLastD noneOption).value true s1 ui2
    match r.2.2.1 with
    | some e => { s := r.1, ui := r.2.1, fired := [], fetches := r.2.2.2.toList, err := some e }
    | none => llTail libList r.1 r.2.1 r.2.2.2.toList
  else
    match (if ui1.hasLocalStorage then canPaste clip s1 else .ok false) with
    | .error e => { s := s1, ui := ui1, fired := [], fetches := [], err := some e }
    | .ok b =>
      if b then
        match togglePasteDisabled false ui1 with
        | .error e => { s := s1, ui := ui1, fired := [], fetches := [], err := some e }
        | .ok ui2 => llTail libList s1 ui2 []
      else llTail libList s1 ui1 []

/-- One replaceContent result: final state, UI, error, fetch issued, and
whether the unsupported-paste error was logged (line 246). -/
structure RCR where
  s : LibState
  ui : UI
  err : Option JsErr
  fetch : Option FetchReq
  errorLogged : Bool
deriving DecidableEq, Repr

/-- The confirmed branch of `replaceContent` (lines 252-270): update the
select control, delete every own key of `this.params` (keeping the object
reference), copy every own key of the generic payload onto it, and reload the
declared library with `preserveParams = true`. -/
def replacePaste (g : PMap) (s : LibState) (ui : UI) : RCR :=
  let ui1 := { ui with selectVal := pmLookup "library" g }
  let p2 := g.foldl (fun m kv => pmSet kv.1 kv.2 m) ([] : PMap)
  let s1 := { s with paramsObj := p2 }
  let r := loadLibraryV (pmLookup "library" g) true s1 ui1
  { s := r.1, ui := r.2.1, err := r.2.2.1, fetch := r.2.2.2, errorLogged := false }

/-- `replaceContent` (lines 241-272).  When `canPaste` is false it logs an
error and returns.  Line 251 calls `ns.confirmReplace` — modelled from the
spec: the host requests confirmation only if a library is already selected,
and runs the continuation at once otherwise; `confirmed` is the outcome of
that dialog. -/
def replaceContent (clip : Option Clip) (confirmed : Bool) (s : LibState) (ui : UI) : RCR :=
  match canPaste clip s with
  | .error e => { s := s, ui := ui, err := some e, fetch := none, errorLogged := false }
  | .ok false => { s := s, ui := ui, err := none, fetch := none, errorLogged := true }
  | .ok true =>
    match clip with
    | some c =>
      match c.generic with
      | some g =>
        if jsTruthy (pmLookup "library" s.paramsObj) && !confirmed then
          { s := s, ui := ui, err := none, fetch := none, errorLogged := false }
        else replacePaste g s ui
      | none => { s := s, ui := ui, err := some .typeError, fetch := none, errorLogged := false }
    | none => { s := s, ui := ui, err := some .typeError, fetch := none, errorLogged := false }

/-- `validate` (lines 487-510): a single accumulator starts true, is cleared
by any failing metadata-form child or child field, and — when no children are
rendered — by a loaded non-empty library list; an optional field returns true
unconditionally (line 509). -/
def validate (s : LibState) : Bool :=
  let v1 := match s.metadataForm with
    | some mf => match mf.mchildren with
      | some mcs => mcs.all fun c => c.valid
      | none => true
    | none => true
  let v2 := match s.children with
    | some cs => cs.all fun c => c.valid
    | none => match s.libraries with
      | some libs => libs.isEmpty
      | none => true
  if s.fieldOptional then true else v1 && v2

/-! ### Laws of the property-map operations -/

theorem pmLookup_pmDelete (k k2 : String) (m : PMap) :
    pmLookup k (pmDelete k2 m) = if k2 = k then none else pmLookup k m := by
  induction m with
  | nil => simp [pmDelete, pmLookup]
  | cons hd t ih =>
    obtain ⟨k', v⟩ := hd
    by_cases h1 : k' = k2
    · subst h1
      by_cases h2 : k' = k
      · subst h2; simp [pmDelete, pmLookup, ih]
      · simp [pmDelete, pmLookup, h2, ih]
    · by_cases h2 : k' = k
      · subst h2
        have h3 : ¬ k2 = k' := fun he => h1 he.symm
        simp [pmDelete, pmLookup, h1, h3]
      · simp [pmDelete, pmLookup, h1, h2, ih]

theorem pmLookup_pmSet (k k2 : String) (v : JsVal) (m : PMap) :
    pmLookup k (pmSet k2 v m) = if k2 = k then some v else pmLookup k m := by
  induction m with
  | nil => simp [pmSet, pmLookup]
  | cons hd t ih =>
    obtain ⟨k', v'⟩ := hd
    by_cases h1 : k' = k2
    · subst h1
      by_cases h2 : k' = k
      · subst h2; simp [pmSet, pmLookup]
      · simp [pmSet, pmLookup, h2]
    · by_cases h2 : k' = k
      · subst h2
        have h3 : ¬ k2 = k' := fun he => h1 he.symm
        simp [pmSet, pmLookup, h1, h3]
      · simp [pmSet, pmLookup, h1, h2, ih]

theorem pmLookup_append (k : String) (m1 m2 : PMap) :
    pmLookup k (m1 ++ m2) = (pmLookup k m1 <|> pmLookup k m2) := by
  induction m1 with
  | nil => simp [pmLookup]
  | cons hd t ih =>
    obtain ⟨k', v⟩ := hd
    by_cases h : k' = k <;> simp [pmLookup, h, ih]

theorem pmSet_eq_append (k : String) (v : JsVal) (m : PMap) (h : pmLookup k m = none) :
    pmSet k v m = m ++ [(k, v)] := by
  induction m with
  | nil => simp [pmSet]
  | cons hd t ih =>
    obtain ⟨k', v'⟩ := hd
    by_cases h1 : k' = k
    · simp [pmLookup, h1] at h
    · simp only [pmLookup, if_neg h1] at h
      simp [pmSet, h1, ih h]

/-- The copy loop of `replaceContent` (lines 263-267) run over an object with
fresh keys reproduces exactly the copied entries. -/
theorem pmCopy_eq (g : PMap) : ∀ acc : PMap, (g.map Prod.fst).Nodup →
    (∀ k ∈ g.map Prod.fst, pmLookup k acc = none) →
    g.foldl (fun m kv => pmSet kv.1 kv.2 m) acc = acc ++ g := by
  induction g with
  | nil => intro acc _ _; simp
  | cons hd t ih =>
    obtain ⟨k, v⟩ := hd
    intro acc hnd hdis
    have hk : pmLookup k acc = none := hdis k (by simp)
    have hnd2 : (k :: t.map Prod.fst).Nodup := by simpa using hnd
    obtain ⟨hknot, hnd'⟩ := List.nodup_cons.mp hnd2
    have hdis' : ∀ k2 ∈ t.map Prod.fst, pmLookup k2 (acc ++ [(k, v)]) = none := by
      intro k2 hk2
      have hne : ¬ k = k2 := fun he => hknot (he ▸ hk2)
      rw [pmLookup_append, hdis k2 (by simp [hk2])]
      simp [pmLookup, hne]
    calc ((k, v) :: t).foldl (fun m kv => pmSet kv.1 kv.2 m) acc
        = t.foldl (fun m kv => pmSet kv.1 kv.2 m) (pmSet k v acc) := rfl
      _ = t.foldl (fun m kv => pmSet kv.1 kv.2 m) (acc ++ [(k, v)]) := by
          rw [pmSet_eq_append k v acc hk]
      _ = (acc ++ [(k, v)]) ++ t := ih (acc ++ [(k, v)]) hnd' hdis'
      _ = acc ++ ((k, v) :: t) := by simp

/-! ### Preservation lemmas for the selector operations -/

theorem derenderAll_rendered (cs : List Child) : ∀ c ∈ derenderAll cs, c.rendered = false := by
  intro c hc
  simp only [derenderAll, List.mem_map] at hc
  obtain ⟨a, _, rfl⟩ := hc
  rfl

theorem removeChildren_paramsObj (s : LibState) : (removeChildren s).paramsObj = s.paramsObj := by
  unfold removeChildren; split <;> rfl

theorem removeChildren_paramsAddr (s : LibState) :
    (removeChildren s).paramsAddr = s.paramsAddr := by
  unfold removeChildren; split <;> rfl

theorem removeChildren_currentLibrary (s : LibState) :
    (removeChildren s).currentLibrary = s.currentLibrary := by
  unfold removeChildren; split <;> rfl

theorem removeChildren_libraries (s : LibState) :
    (removeChildren s).libraries = s.libraries := by
  unfold removeChildren; split <;> rfl

theorem removeChildren_changes (s : LibState) : (removeChildren s).changes = s.changes := by
  unfold removeChildren; split <;> rfl

theorem removeChildren_runChangeCallback (s : LibState) :
    (removeChildren s).runChangeCallback = s.runChangeCallback := by
  unfold removeChildren; split <;> rfl

theorem removeChildren_fieldOptional (s : LibState) :
    (removeChildren s).fieldOptional = s.fieldOptional := by
  unfold removeChildren; split <;> rfl

theorem removeChildren_libraryName (s : LibState) :
    (removeChildren s).libraryName = s.libraryName := by
  unfold removeChildren; split <;> rfl

theorem removeChildren_children (s : LibState) (h : ¬ s.currentLibrary = some "-") :
    (removeChildren s).children = s.children.map derenderAll := by
  by_cases hc : s.children = none
  · simp [removeChildren, hc]
  · simp [removeChildren, hc, h]

theorem toggleCopyDisabled_ok (b : Bool) (ui ui2 : UI)
    (h : toggleCopyDisabled b ui = .ok ui2) :
    ui2.options = ui.options ∧ ui2.copyButton = ui.copyButton ∧
      ui2.hasLocalStorage = ui.hasLocalStorage := by
  unfold toggleCopyDisabled at h
  split at h
  · cases h
  · rename_i inDom heq
    cases inDom
    · have h2 : ui = ui2 := by simpa using h
      rw [← h2]
      exact ⟨rfl, rfl, rfl⟩
    · have h2 : { ui with copyDisabled := b } = ui2 := by simpa using h
      rw [← h2]
      exact ⟨rfl, rfl, rfl⟩

theorem togglePasteDisabled_ok (b : Bool) (ui ui2 : UI)
    (h : togglePasteDisabled b ui = .ok ui2) :
    ui2.options = ui.options ∧ ui2.copyButton = ui.copyButton ∧
      ui2.hasLocalStorage = ui.hasLocalStorage := by
  unfold togglePasteDisabled at h
  split at h
  · cases h
  · rename_i inDom heq
    cases inDom
    · have h2 : ui = ui2 := by simpa using h
      rw [← h2]
      exact ⟨rfl, rfl, rfl⟩
    · have h2 : { ui with pasteDisabled := b } = ui2 := by simpa using h
      rw [← h2]
      exact ⟨rfl, rfl, rfl⟩

theorem loadLibrary_state_preserves (nm : String) (pv : Bool) (s : LibState) (ui : UI) :
    (loadLibrary nm pv s ui).1.paramsAddr = s.paramsAddr
    ∧ (loadLibrary nm pv s ui).1.currentLibrary = s.currentLibrary
    ∧ (loadLibrary nm pv s ui).1.libraries = s.libraries
    ∧ (loadLibrary nm pv s ui).1.changes = s.changes
    ∧ (loadLibrary nm pv s ui).1.runChangeCallback = s.runChangeCallback
    ∧ (loadLibrary nm pv s ui).1.fieldOptional = s.fieldOptional
    ∧ (loadLibrary nm pv s ui).1.libraryName = s.libraryName
    ∧ (loadLibrary nm pv s ui).2.1.options = ui.options := by
  simp only [loadLibrary]
  split
  · split
    · simp [removeChildren_paramsAddr, removeChildren_currentLibrary, removeChildren_libraries,
        removeChildren_changes, removeChildren_runChangeCallback, removeChildren_fieldOptional,
        removeChildren_libraryName]
    · rename_i ui2 heq
      obtain ⟨ho, -, -⟩ := toggleCopyDisabled_ok _ _ _ heq
      simp [removeChildren_paramsAddr, removeChildren_currentLibrary, removeChildren_libraries,
        removeChildren_changes, removeChildren_runChangeCallback, removeChildren_fieldOptional,
        removeChildren_libraryName, ho]
  · simp [removeChildren_paramsAddr, removeChildren_currentLibrary, removeChildren_libraries,
      removeChildren_changes, removeChildren_runChangeCallback, removeChildren_fieldOptional,
      removeChildren_libraryName]

theorem loadLibrary_paramsObj_of_ne (nm : String) (pv : Bool) (s : LibState) (ui : UI)
    (h : ¬ nm = "-") : (loadLibrary nm pv s ui).1.paramsObj = s.paramsObj := by
  simp [loadLibrary, h, removeChildren_paramsObj]

theorem loadLibrary_none_paramsObj (pv : Bool) (s : LibState) (ui : UI) :
    (loadLibrary "-" pv s ui).1.paramsObj =
      pmDelete "metadata" (pmDelete "subContentId" (pmDelete "params"
        (pmDelete "library" s.paramsObj))) := by
  simp only [loadLibrary]
  split
  · split <;> simp [removeChildren_paramsObj]
  · rename_i hne
    exact absurd trivial hne

theorem loadLibrary_none_ok (pv : Bool) (s : LibState) (ui : UI) (b : Bool)
    (h : ui.copyButton = some b) :
    (loadLibrary "-" pv s ui).2.2.1 = none ∧ (loadLibrary "-" pv s ui).2.2.2 = none := by
  simp [loadLibrary, toggleCopyDisabled, h]

theorem loadLibrary_none_throws (pv : Bool) (s : LibState) (ui : UI)
    (h : ui.copyButton = none) :
    (loadLibrary "-" pv s ui).2.2.1 = some JsErr.typeError
    ∧ (loadLibrary "-" pv s ui).2.2.2 = none := by
  simp [loadLibrary, toggleCopyDisabled, h]

theorem loadLibrary_fetch_of_ne (nm : String) (pv : Bool) (s : LibState) (ui : UI)
    (h : ¬ nm = "-") :
    (loadLibrary nm pv s ui).2.2.1 = none
    ∧ (loadLibrary nm pv s ui).2.2.2 = some { name := nm, preserve := pv } := by
  simp [loadLibrary, h]

theorem loadLibraryV_state_preserves (v : Option JsVal) (pv : Bool) (s : LibState) (ui : UI) :
    (loadLibraryV v pv s ui).1.paramsAddr = s.paramsAddr
    ∧ (loadLibraryV v pv s ui).1.libraryName = s.libraryName
    ∧ (loadLibraryV v pv s ui).2.1.options = ui.options := by
  match v with
  | some (.str nm) =>
    obtain ⟨h1, -, -, -, -, -, h7, h8⟩ := loadLibrary_state_preserves nm pv s ui
    exact ⟨h1, h7, h8⟩
  | some .emptyObj =>
    exact ⟨removeChildren_paramsAddr s, removeChildren_libraryName s, rfl⟩
  | some (.blob _) =>
    exact ⟨removeChildren_paramsAddr s, removeChildren_libraryName s, rfl⟩
  | none =>
    exact ⟨removeChildren_paramsAddr s, removeChildren_libraryName s, rfl⟩

theorem loadLibraryCallback_paramsObj (em : String → Bool) (nm : String) (pv : Bool)
    (uu : String) (mf : MForm) (nc : List Child) (s : LibState) (ui : UI) :
    (loadLibraryCallback em nm pv uu mf nc s ui).1.paramsObj = cbParams nm pv uu s.paramsObj := by
  simp only [loadLibraryCallback]
  split
  · rfl
  · split
    · rfl
    · split <;> rfl

theorem loadLibraryCallback_state_preserves (em : String → Bool) (nm : String) (pv : Bool)
    (uu : String) (mf : MForm) (nc : List Child) (s : LibState) (ui : UI) :
    (loadLibraryCallback em nm pv uu mf nc s ui).1.paramsAddr = s.paramsAddr
    ∧ (loadLibraryCallback em nm pv uu mf nc s ui).1.libraryName = s.libraryName
    ∧ (loadLibraryCallback em nm pv uu mf nc s ui).1.libraries = s.libraries := by
  simp only [loadLibraryCallback]
  split
  · exact ⟨rfl, rfl, rfl⟩
  · split
    · exact ⟨rfl, rfl, rfl⟩
    · split <;> exact ⟨rfl, rfl, rfl⟩

theorem llTail_state_preserves (ll : List LibDesc) (s2 : LibState) (ui2 : UI)
    (fet : List FetchReq) :
    (llTail ll s2 ui2 fet).s.paramsAddr = s2.paramsAddr
    ∧ (llTail ll s2 ui2 fet).s.libraryName = s2.libraryName
    ∧ (llTail ll s2 ui2 fet).ui.options = ui2.options := by
  simp only [llTail]
  split
  · constructor
    · split <;> rfl
    · constructor
      · split <;> rfl
      · rfl
  · rename_i v heq
    obtain ⟨h1, h2, h3⟩ := loadLibraryV_state_preserves (some v) true
      (if s2.runChangeCallback then { s2 with runChangeCallback := false } else s2) ui2
    refine ⟨?_, ?_, h3⟩
    · rw [h1]; split <;> rfl
    · rw [h2]; split <;> rfl

theorem librariesLoaded_state_preserves (ll : List LibDesc) (clip : Option Clip)
    (s : LibState) (ui : UI) :
    (librariesLoaded ll clip s ui).s.paramsAddr = s.paramsAddr
    ∧ (librariesLoaded ll clip s ui).s.libraryName = s.libraryName := by
  simp only [librariesLoaded]
  split
  · split
    · rename_i r e heq
      obtain ⟨h1, -, -, -, -, -, h7, -⟩ := loadLibrary_state_preserves _ true _ _
      exact ⟨h1, h7⟩
    · obtain ⟨h1, -, -, -, -, -, h7, -⟩ := loadLibrary_state_preserves _ true _ _
      obtain ⟨g1, g2, -⟩ := llTail_state_preserves ll _ _ _
      exact ⟨g1.trans h1, g2.trans h7⟩
  · split
    · exact ⟨rfl, rfl⟩
    · split
      · split
        · exact ⟨rfl, rfl⟩
        · obtain ⟨g1, g2, -⟩ := llTail_state_preserves ll _ _ _
          exact ⟨g1, g2⟩
      · obtain ⟨g1, g2, -⟩ := llTail_state_preserves ll _ _ _
        exact ⟨g1, g2⟩

theorem replacePaste_state_preserves (g : PMap) (s : LibState) (ui : UI) :
    (replacePaste g s ui).s.paramsAddr = s.paramsAddr
    ∧ (replacePaste g s ui).s.libraryName = s.libraryName := by
  simp only [replacePaste]
  obtain ⟨h1, h2, -⟩ := loadLibraryV_state_preserves (pmLookup "library" g) true
    { s with paramsObj := g.foldl (fun m kv => pmSet kv.1 kv.2 m) ([] : PMap) }
    { ui with selectVal := pmLookup "library" g }
  exact ⟨h1, h2⟩

theorem replaceContent_state_preserves (clip : Option Clip) (cf : Bool) (s : LibState)
    (ui : UI) :
    (replaceContent clip cf s ui).s.paramsAddr = s.paramsAddr
    ∧ (replaceContent clip cf s ui).s.libraryName = s.libraryName := by
  simp only [replaceContent]
  split
  · exact ⟨rfl, rfl⟩
  · exact ⟨rfl, rfl⟩
  · split
    · split
      · split
        · exact ⟨rfl, rfl⟩
        · exact replacePaste_state_preserves _ s ui
      · exact ⟨rfl, rfl⟩
    · exact ⟨rfl, rfl⟩

/-! ### Claim C1 -/

/-- C1: `canPaste` returns true iff the clipboard value is present, has a
generic payload, and the payload's declared `library` string is exactly the
`uberName` of some descriptor in the currently loaded library list; in
particular it returns false for an absent clipboard or one without a generic
payload. -/
theorem c1_canPaste_iff :
    (∀ (s : LibState) (libs : List LibDesc) (clip : Option Clip),
      s.libraries = some libs →
      (canPaste clip s = .ok true ↔
        ∃ c g, clip = some c ∧ c.generic = some g ∧
          ∃ d ∈ libs, pmLookup "library" g = some (JsVal.str d.uberName)))
    ∧ (∀ s : LibState, canPaste none s = .ok false)
    ∧ (∀ (s : LibState) (c : Clip), c.generic = none → canPaste (some c) s = .ok false) := by
  refine ⟨?_, fun s => rfl, ?_⟩
  · intro s libs clip hlibs
    cases clip with
    | none => simp [canPaste]
    | some c =>
      cases hg : c.generic with
      | none => simp [canPaste, hg]
      | some g =>
        simp only [canPaste, hg, hlibs, Except.ok.injEq, List.any_eq_true, decide_eq_true_eq]
        constructor
        · rintro ⟨d, hd, hp⟩
          exact ⟨c, g, rfl, hg, d, hd, hp⟩
        · rintro ⟨c', g', hc, hg', d, hd, hp⟩
          cases hc
          rw [hg] at hg'
          cases hg'
          exact ⟨d, hd, hp⟩
  · intro s c h
    simp [canPaste, h]

def c1libs : List LibDesc :=
  [{ uberName := "H5P.Blanks 1.3", title := some "Blanks", restricted := none, metadata := none }]

def c1s : LibState := { initState none 0 false with libraries := some c1libs }

def c1clip : Clip :=
  { generic := some [("library", JsVal.str "H5P.Blanks 1.3"), ("params", JsVal.emptyObj)] }

/-- C1 witness: a concrete pastable clipboard and the absent clipboard. -/
theorem c1_witness :
    canPaste (some c1clip) c1s = .ok true ∧ canPaste none c1s = .ok false := by
  constructor
  · exact (c1_canPaste_iff.1 c1s c1libs (some c1clip) rfl).mpr
      ⟨c1clip, [("library", JsVal.str "H5P.Blanks 1.3"), ("params", JsVal.emptyObj)], rfl, rfl,
        { uberName := "H5P.Blanks 1.3", title := some "Blanks", restricted := none,
          metadata := none }, by decide, by decide⟩
  · exact c1_canPaste_iff.2.1 c1s

/-! ### Claim C2 -/

/-- C2: for every clipboard value on which `canPaste` is false,
`replaceContent` reports the error to the operator (the console log of line
246) and returns with the entire selector state — in particular every key of
`this.params` and the current library — unchanged. -/
theorem c2_replaceContent_rejects (clip : Option Clip) (cf : Bool) (s : LibState) (ui : UI)
    (h : canPaste clip s = .ok false) :
    replaceContent clip cf s ui =
      { s := s, ui := ui, err := none, fetch := none, errorLogged := true } := by
  simp [replaceContent, h]

def c2s : LibState := { initState none 0 false with libraries := some [] }

def c2ui : UI := appendToUI true true

/-- C2 witness: pasting a payload whose library is not installed. -/
theorem c2_witness :
    replaceContent (some { generic := some [("library", JsVal.str "H5P.Foo 1.0")] }) true c2s c2ui
      = { s := c2s, ui := c2ui, err := none, fetch := none, errorLogged := true } :=
  c2_replaceContent_rejects _ true c2s c2ui (by rfl)

/-! ### Claim C3 -/

/-- C3: every state-mutating operation of the selector leaves the reference
identity of the parameter object (`paramsAddr`) unchanged — the object is
mutated in place, never replaced — and a confirmed paste deletes every own
key of `this.params` and copies every own key of the generic payload onto the
same object, so its content becomes exactly the payload. -/
theorem c3_params_in_place :
    (∀ s, (removeChildren s).paramsAddr = s.paramsAddr)
    ∧ (∀ nm pv s ui, (loadLibrary nm pv s ui).1.paramsAddr = s.paramsAddr)
    ∧ (∀ v pv s ui, (loadLibraryV v pv s ui).1.paramsAddr = s.paramsAddr)
    ∧ (∀ em nm pv uu mf nc s ui,
        (loadLibraryCallback em nm pv uu mf nc s ui).1.paramsAddr = s.paramsAddr)
    ∧ (∀ ll clip s ui, (librariesLoaded ll clip s ui).s.paramsAddr = s.paramsAddr)
    ∧ (∀ clip cf s ui, (replaceContent clip cf s ui).s.paramsAddr = s.paramsAddr)
    ∧ (∀ cb s s2 f, change cb s = .ok (s2, f) → s2.paramsAddr = s.paramsAddr)
    ∧ (∀ c g nm s ui, canPaste (some c) s = .ok true → c.generic = some g →
        pmLookup "library" g = some (JsVal.str nm) → ¬ nm = "-" →
        (g.map Prod.fst).Nodup →
        (replaceContent (some c) true s ui).s.paramsObj = g) := by
  refine ⟨removeChildren_paramsAddr,
    fun nm pv s ui => (loadLibrary_state_preserves nm pv s ui).1,
    fun v pv s ui => (loadLibraryV_state_preserves v pv s ui).1,
    fun em nm pv uu mf nc s ui => (loadLibraryCallback_state_preserves em nm pv uu mf nc s ui).1,
    fun ll clip s ui => (librariesLoaded_state_preserves ll clip s ui).1,
    fun clip cf s ui => (replaceContent_state_preserves clip cf s ui).1,
    ?_, ?_⟩
  · intro cb s s2 f h
    cases cb with
    | some c =>
      simp only [change, Except.ok.injEq, Prod.mk.injEq] at h
      rw [← h.1]
    | none =>
      cases hl : s.libraries with
      | none => rw [change, hl] at h; cases h
      | some libs =>
        rw [change, hl] at h
        simp only [Except.ok.injEq, Prod.mk.injEq] at h
        rw [← h.1]
  · intro c g nm s ui hcp hg hlib hne hnd
    have hrc : replaceContent (some c) true s ui = replacePaste g s ui := by
      simp [replaceContent, hcp, hg]
    rw [hrc]
    simp only [replacePaste, hlib, loadLibraryV]
    rw [loadLibrary_paramsObj_of_ne nm true _ _ hne]
    simpa using pmCopy_eq g [] hnd fun k _ => rfl

def c3libs : List LibDesc :=
  [{ uberName := "H5P.Blanks 1.3", title := some "Blanks", restricted := none, metadata := none }]

def c3s : LibState := { initState none 5 false with libraries := some c3libs }

def c3ui : UI := appendToUI true true

def c3g : PMap :=
  [("library", JsVal.str "H5P.Blanks 1.3"), ("params", JsVal.emptyObj),
   ("subContentId", JsVal.str "uuid-7")]

/-- C3 witness: a concrete confirmed paste replaces the object content with
the payload while preserving the reference address. -/
theorem c3_witness :
    (replaceContent (some { generic := some c3g }) true c3s c3ui).s.paramsObj = c3g
    ∧ (replaceContent (some { generic := some c3g }) true c3s c3ui).s.paramsAddr = 5 := by
  constructor
  · exact c3_params_in_place.2.2.2.2.2.2.2 { generic := some c3g } c3g "H5P.Blanks 1.3" c3s c3ui
      (by rfl) rfl (by decide) (by decide) (by decide)
  · exact (c3_params_in_place.2.2.2.2.2.1 (some { generic := some c3g }) true c3s c3ui).trans rfl

/-! ### Claim C4 -/

theorem loadLibrary_none_children (pv : Bool) (s : LibState) (ui : UI) :
    (loadLibrary "-" pv s ui).1.children = (removeChildren s).children := by
  simp only [loadLibrary]
  split
  · split <;> rfl
  · rename_i hne
    exact absurd trivial hne

/-- C4: calling `loadLibrary` with the none sentinel deletes exactly the keys
`library`, `params`, `subContentId` and `metadata` from the parameter object,
leaves no rendered children, and returns without issuing a schema fetch or
changing any other component state.  Hypotheses: `$copyButton` was assigned
(window.localStorage available — otherwise line 370 throws, see C10) and the
current library is not itself the sentinel (it never is: only real library
names are ever recorded, line 377). -/
theorem c4_loadLibrary_none (pv : Bool) (s : LibState) (ui : UI) (b : Bool)
    (hbtn : ui.copyButton = some b) (hcur : ¬ s.currentLibrary = some "-") :
    (pmLookup "library" (loadLibrary "-" pv s ui).1.paramsObj = none
      ∧ pmLookup "params" (loadLibrary "-" pv s ui).1.paramsObj = none
      ∧ pmLookup "subContentId" (loadLibrary "-" pv s ui).1.paramsObj = none
      ∧ pmLookup "metadata" (loadLibrary "-" pv s ui).1.paramsObj = none)
    ∧ (∀ k, ¬ k = "library" → ¬ k = "params" → ¬ k = "subContentId" → ¬ k = "metadata" →
        pmLookup k (loadLibrary "-" pv s ui).1.paramsObj = pmLookup k s.paramsObj)
    ∧ (∀ cs, (loadLibrary "-" pv s ui).1.children = some cs → ∀ c ∈ cs, c.rendered = false)
    ∧ (loadLibrary "-" pv s ui).2.2.2 = none
    ∧ (loadLibrary "-" pv s ui).2.2.1 = none
    ∧ (loadLibrary "-" pv s ui).1.currentLibrary = s.currentLibrary
    ∧ (loadLibrary "-" pv s ui).1.libraries = s.libraries
    ∧ (loadLibrary "-" pv s ui).1.changes = s.changes
    ∧ (loadLibrary "-" pv s ui).1.runChangeCallback = s.runChangeCallback
    ∧ (loadLibrary "-" pv s ui).1.paramsAddr = s.paramsAddr
    ∧ (loadLibrary "-" pv s ui).1.libraryName = s.libraryName
    ∧ (loadLibrary "-" pv s ui).1.fieldOptional = s.fieldOptional := by
  obtain ⟨p1, p2, p3, p4, p5, p6, p7, -⟩ := loadLibrary_state_preserves "-" pv s ui
  obtain ⟨q1, q2⟩ := loadLibrary_none_ok pv s ui b hbtn
  refine ⟨?_, ?_, ?_, q2, q1, p2, p3, p4, p5, p1, p7, p6⟩
  · rw [loadLibrary_none_paramsObj]
    simp [pmLookup_pmDelete]
  · intro k h1 h2 h3 h4
    rw [loadLibrary_none_paramsObj]
    have h1' : ¬ "library" = k := fun he => h1 he.symm
    have h2' : ¬ "params" = k := fun he => h2 he.symm
    have h3' : ¬ "subContentId" = k := fun he => h3 he.symm
    have h4' : ¬ "metadata" = k := fun he => h4 he.symm
    simp [pmLookup_pmDelete, h1', h2', h3', h4']
  · intro cs hcs c hc
    rw [loadLibrary_none_children, removeChildren_children s hcur] at hcs
    cases hch : s.children with
    | none => rw [hch] at hcs; cases hcs
    | some cs0 =>
      rw [hch] at hcs
      have hde : derenderAll cs0 = cs := by simpa using hcs
      subst hde
      exact derenderAll_rendered cs0 c hc

def c4s : LibState :=
  { initState (some [("library", JsVal.str "H5P.Blanks 1.3"), ("params", JsVal.emptyObj),
      ("subContentId", JsVal.str "uuid-1"), ("metadata", JsVal.emptyObj),
      ("extra", JsVal.blob 3)]) 2 false with
    currentLibrary := some "H5P.Blanks 1.3",
    children := some [{ valid := true, rendered := true }] }

def c4ui : UI := appendToUI true true

/-- C4 witness: a concrete loaded selector cleared by selecting none. -/
theorem c4_witness :
    pmLookup "library" (loadLibrary "-" true c4s c4ui).1.paramsObj = none
    ∧ pmLookup "extra" (loadLibrary "-" true c4s c4ui).1.paramsObj = some (JsVal.blob 3)
    ∧ (loadLibrary "-" true c4s c4ui).2.2.2 = none := by
  obtain ⟨⟨h1, -, -, -⟩, h2, -, h4, -⟩ :=
    c4_loadLibrary_none true c4s c4ui true rfl (by decide)
  refine ⟨h1, ?_, h4⟩
  rw [h2 "extra" (by decide) (by decide) (by decide) (by decide)]
  rfl

/-! ### Claim C5 -/

/-- C5: when a schema fetch completes, an unset `preserveParams` resets
`params` and `metadata` to empty objects and assigns the freshly generated
uuid as `subContentId`; `preserveParams = true` keeps an existing
`subContentId`; and in either case a `subContentId` is present afterwards. -/
theorem c5_callback_params (em : String → Bool) (nm : String) (pv : Bool)
    (uu : String) (mf : MForm) (nc : List Child) (s : LibState) (ui : UI) :
    (pv = false →
      pmLookup "subContentId" (loadLibraryCallback em nm pv uu mf nc s ui).1.paramsObj
          = some (JsVal.str uu)
        ∧ pmLookup "params" (loadLibraryCallback em nm pv uu mf nc s ui).1.paramsObj
          = some JsVal.emptyObj
        ∧ pmLookup "metadata" (loadLibraryCallback em nm pv uu mf nc s ui).1.paramsObj
          = some JsVal.emptyObj)
    ∧ (pv = true → ∀ v, pmLookup "subContentId" s.paramsObj = some v →
        pmLookup "subContentId" (loadLibraryCallback em nm pv uu mf nc s ui).1.paramsObj
          = some v)
    ∧ (pmLookup "subContentId"
        (loadLibraryCallback em nm pv uu mf nc s ui).1.paramsObj).isSome = true := by
  rw [loadLibraryCallback_paramsObj]
  refine ⟨?_, ?_, ?_⟩
  · intro hpv
    subst hpv
    simp [cbParams, pmLookup_pmSet, pmLookup_pmDelete]
  · intro hpv v hv
    subst hpv
    simp only [cbParams]
    simp [pmLookup_pmSet, pmLookup_pmDelete, hv]
    split <;> simp [pmLookup_pmSet, hv]
  · cases pv with
    | false => simp [cbParams, pmLookup_pmSet, pmLookup_pmDelete]
    | true =>
      by_cases hsub : pmLookup "subContentId" s.paramsObj = none
      · simp only [cbParams]
        simp [pmLookup_pmSet, pmLookup_pmDelete, hsub]
        split <;> simp [pmLookup_pmSet, hsub]
      · obtain ⟨w, hw⟩ := Option.ne_none_iff_exists'.mp hsub
        simp only [cbParams]
        simp [pmLookup_pmSet, pmLookup_pmDelete, hw]
        split <;> simp [pmLookup_pmSet, hw]

def c5s : LibState :=
  initState (some [("library", JsVal.str "H5P.A 1.0"), ("params", JsVal.blob 1),
    ("subContentId", JsVal.str "uuid-old"), ("metadata", JsVal.blob 2)]) 0 false

/-- C5 witness: a reload without preserveParams resets the object and assigns
the new uuid; a reload with preserveParams keeps the old subContentId. -/
theorem c5_witness :
    pmLookup "subContentId"
        (loadLibraryCallback (fun _ => true) "H5P.B 2.0" false "uuid-new" ⟨none⟩ [] c5s
          (appendToUI true true)).1.paramsObj = some (JsVal.str "uuid-new")
    ∧ pmLookup "subContentId"
        (loadLibraryCallback (fun _ => true) "H5P.B 2.0" true "uuid-new" ⟨none⟩ [] c5s
          (appendToUI true true)).1.paramsObj = some (JsVal.str "uuid-old") := by
  constructor
  · exact ((c5_callback_params (fun _ => true) "H5P.B 2.0" false "uuid-new" ⟨none⟩ [] c5s
      (appendToUI true true)).1 rfl).1
  · exact (c5_callback_params (fun _ => true) "H5P.B 2.0" true "uuid-new" ⟨none⟩ [] c5s
      (appendToUI true true)).2.1 rfl (JsVal.str "uuid-old") (by decide)

/-! ### Claim C6 -/

def c6sA : LibState :=
  { initState none 0 true with children := some [{ valid := false, rendered := true }] }

def c6sB : LibState := { initState none 0 false with libraries := some [] }

/-- C6 counterexample: `validate` returns true for an optional field whose
rendered child fails validation — the optional escape of line 509 is not
limited to unselected fields — and returns true for a required, unselected
field when the delivered library list is empty, so the claim "returns true
only if every child validates and a library is selected (except optional and
unselected)" and its "required + unselected implies false" clause are both
false on the code. -/
theorem c6_counterexample :
    (c6sA.fieldOptional = true
      ∧ c6sA.children = some [{ valid := false, rendered := true }]
      ∧ validate c6sA = true)
    ∧ (c6sB.fieldOptional = false ∧ c6sB.children = none ∧ c6sB.libraries = some []
      ∧ validate c6sB = true) := by
  decide

/-- C6 amended: `validate()` returns true iff the field descriptor marks the
slot optional (in which case children are not consulted at all), or every
metadata-form child and every child field validates and — when no children
are rendered — the library list is absent or empty; in particular required +
unselected yields false exactly when a non-empty library list was
delivered. -/
theorem c6_validate_iff (s : LibState) :
    validate s = true ↔
      (s.fieldOptional = true ∨
        ((∀ mf, s.metadataForm = some mf → ∀ mcs, mf.mchildren = some mcs →
            ∀ c ∈ mcs, c.valid = true)
          ∧ (∀ cs, s.children = some cs → ∀ c ∈ cs, c.valid = true)
          ∧ (s.children = none → ∀ libs, s.libraries = some libs → libs = []))) := by
  cases hopt : s.fieldOptional with
  | true => simp [validate, hopt]
  | false =>
    cases hmf : s.metadataForm with
    | none =>
      cases hch : s.children with
      | none =>
        cases hl : s.libraries with
        | none => simp [validate, hopt, hmf, hch, hl]
        | some libs =>
          simp [validate, hopt, hmf, hch, hl, List.isEmpty_iff]
      | some cs =>
        simp [validate, hopt, hmf, hch, List.all_eq_true]
    | some mf =>
      cases hmc : mf.mchildren with
      | none =>
        cases hch : s.children with
        | none =>
          cases hl : s.libraries with
          | none => simp [validate, hopt, hmf, hmc, hch, hl]
          | some libs =>
            simp [validate, hopt, hmf, hmc, hch, hl, List.isEmpty_iff]
        | some cs =>
          simp [validate, hopt, hmf, hmc, hch, List.all_eq_true]
      | some mcs =>
        cases hch : s.children with
        | none =>
          cases hl : s.libraries with
          | none => simp [validate, hopt, hmf, hmc, hch, hl, List.all_eq_true]
          | some libs =>
            simp [validate, hopt, hmf, hmc, hch, hl, List.isEmpty_iff, List.all_eq_true]
        | some cs =>
          simp [validate, hopt, hmf, hmc, hch, List.all_eq_true]

def c6optS : LibState := initState none 0 true

/-- C6 witness: the amended characterization applied to an optional field. -/
theorem c6_witness : validate c6optS = true :=
  (c6_validate_iff c6optS).mpr (Or.inl rfl)

/-! ### Claim C7 -/

theorem loadLibrary_ui_options (nm : String) (pv : Bool) (s : LibState) (ui : UI) :
    (loadLibrary nm pv s ui).2.1.options = ui.options :=
  (loadLibrary_state_preserves nm pv s ui).2.2.2.2.2.2.2

theorem llTail_ui_options (ll : List LibDesc) (s2 : LibState) (ui2 : UI)
    (fet : List FetchReq) : (llTail ll s2 ui2 fet).ui.options = ui2.options :=
  (llTail_state_preserves ll s2 ui2 fet).2.2

theorem librariesLoaded_options_eq (ll : List LibDesc) (clip : Option Clip) (s : LibState)
    (ui : UI) :
    (librariesLoaded ll clip s ui).ui.options =
      noneOption :: (ll.filterMap fun d =>
        if optionCond (pmLookup "library" s.paramsObj) d then
          some (mkOption (pmLookup "library" s.paramsObj) d)
        else none) := by
  simp only [librariesLoaded]
  split
  · split
    · exact loadLibrary_ui_options _ true _ _
    · exact (llTail_ui_options ll _ _ _).trans (loadLibrary_ui_options _ true _ _)
  · split
    · rfl
    · split
      · split
        · rfl
        · rename_i heq
          exact (llTail_ui_options ll _ _ _).trans (togglePasteDisabled_ok _ _ _ heq).1
      · exact llTail_ui_options ll _ _ _

def c7libs : List LibDesc :=
  [{ uberName := "H5P.A 1.0", title := none, restricted := none, metadata := none },
   { uberName := "H5P.B 1.0", title := some "B", restricted := none, metadata := none }]

def c7s : LibState := initState (some [("library", JsVal.str "H5P.A 1.0")]) 0 false

def c7ui : UI := appendToUI false false

/-- C7 counterexample: a currently selected descriptor whose title is
undefined is still rendered as an option (condition of line 308 is
`selected OR (title defined AND unrestricted)`), so the rendered list is not
"exactly those descriptors whose title is defined and which are either
unrestricted or currently selected". -/
theorem c7_counterexample :
    (librariesLoaded c7libs none c7s c7ui).ui.options =
      [noneOption,
       { value := "H5P.A 1.0", text := none, selected := true },
       { value := "H5P.B 1.0", text := some "B", selected := false }]
    ∧ (∀ d ∈ c7libs, d.uberName = "H5P.A 1.0" → d.title = none) := by
  constructor
  · rfl
  · decide

/-- C7 amended: the rendered option list is exactly one none option at the
head followed, in source order, by one option per descriptor that is
currently selected or has a defined title and is unrestricted (a selected
descriptor is rendered even when its title is undefined); each descriptor
option is marked selected iff its uberName equals `params.library`. -/
theorem c7_options (ll : List LibDesc) (clip : Option Clip) (s : LibState) (ui : UI) :
    (librariesLoaded ll clip s ui).ui.options.head? = some noneOption
    ∧ ((librariesLoaded ll clip s ui).ui.options.tail =
        ll.filterMap fun d =>
          if optionCond (pmLookup "library" s.paramsObj) d then
            some (mkOption (pmLookup "library" s.paramsObj) d)
          else none)
    ∧ (∀ o ∈ (librariesLoaded ll clip s ui).ui.options.tail,
        ∃ d ∈ ll, optionCond (pmLookup "library" s.paramsObj) d = true ∧
          o = mkOption (pmLookup "library" s.paramsObj) d)
    ∧ (∀ d ∈ ll, optionCond (pmLookup "library" s.paramsObj) d = true →
        mkOption (pmLookup "library" s.paramsObj) d
          ∈ (librariesLoaded ll clip s ui).ui.options) := by
  have he := librariesLoaded_options_eq ll clip s ui
  refine ⟨?_, ?_, ?_, ?_⟩
  · rw [he]; rfl
  · rw [he]; rfl
  · intro o ho
    rw [he] at ho
    simp only [List.tail_cons] at ho
    obtain ⟨d, hd, hfd⟩ := List.mem_filterMap.mp ho
    by_cases hc : optionCond (pmLookup "library" s.paramsObj) d = true
    · rw [if_pos hc] at hfd
      exact ⟨d, hd, hc, (Option.some_inj.mp hfd).symm⟩
    · rw [if_neg hc] at hfd
      cases hfd
  · intro d hd hc
    rw [he]
    refine List.mem_cons_of_mem _ (List.mem_filterMap.mpr ⟨d, hd, ?_⟩)
    rw [if_pos hc]

/-- C7 witness: the amended characterization at a concrete registry answer. -/
theorem c7_witness :
    (librariesLoaded c7libs none c7s c7ui).ui.options.head? = some noneOption
    ∧ mkOption (pmLookup "library" c7s.paramsObj)
        { uberName := "H5P.B 1.0", title := some "B", restricted := none, metadata := none }
        ∈ (librariesLoaded c7libs none c7s c7ui).ui.options := by
  refine ⟨(c7_options c7libs none c7s c7ui).1, ?_⟩
  exact (c7_options c7libs none c7s c7ui).2.2.2 _ (by decide) (by decide)

/-! ### Claim C8 -/

theorem loadLibraryV_changes (v : Option JsVal) (pv : Bool) (s : LibState) (ui : UI) :
    (loadLibraryV v pv s ui).1.changes = s.changes := by
  match v with
  | some (.str nm) => exact (loadLibrary_state_preserves nm pv s ui).2.2.2.1
  | some .emptyObj => exact removeChildren_changes s
  | some (.blob _) => exact removeChildren_changes s
  | none => exact removeChildren_changes s

theorem llTail_changes (ll : List LibDesc) (s2 : LibState) (ui2 : UI) (fet : List FetchReq) :
    (llTail ll s2 ui2 fet).s.changes = s2.changes := by
  simp only [llTail]
  split
  · split <;> rfl
  · rw [loadLibraryV_changes]
    split <;> rfl

theorem librariesLoaded_changes (ll : List LibDesc) (clip : Option Clip) (s : LibState)
    (ui : UI) : (librariesLoaded ll clip s ui).s.changes = s.changes := by
  simp only [librariesLoaded]
  split
  · split
    · exact (loadLibrary_state_preserves _ true _ _).2.2.2.1
    · exact (llTail_changes ll _ _ _).trans (loadLibrary_state_preserves _ true _ _).2.2.2.1
  · split
    · rfl
    · split
      · split
        · rfl
        · exact llTail_changes ll _ _ _
      · exact llTail_changes ll _ _ _

def c8s0 : LibState := initState none 0 false

def c8ui : UI := appendToUI false false

def c8r1 : LibState × UI × Option JsErr × List (Nat × Option LibDesc) :=
  loadLibraryCallback (fun _ => true) "H5P.X 1.0" true "uuid-1" ⟨none⟩ [] c8s0 c8ui

def c8s2 : LibState := { c8r1.1 with changes := c8r1.1.changes ++ [0] }

def c8d : LibDesc :=
  { uberName := "H5P.X 1.0", title := some "X", restricted := none, metadata := none }

def c8dB : LibDesc :=
  { uberName := "H5P.Y 1.0", title := some "Y", restricted := none, metadata := none }

def c8r3 : LLR := librariesLoaded [c8d, c8dB] none c8s2 c8ui

/-- The callback of the schema fetch that `librariesLoaded` issued at lines
346-348 (`c8r3.fetches` records exactly this request for `params.library`
with `preserveParams = true`). -/
def c8r4 : LibState × UI × Option JsErr × List (Nat × Option LibDesc) :=
  loadLibraryCallback (fun _ => true) "H5P.X 1.0" true "uuid-2" ⟨none⟩ [] c8r3.s c8r3.ui

/-- C8 counterexample: a load fires while the library list is still missing;
line 378 has recorded `params.library`, then the callback throws a TypeError
at `findLibraryMetadataSettings` (line 440) before line 425 can set the
run-once-ready flag.  A callback registered afterwards does eventually fire —
but not via that flag: when `librariesLoaded` runs, `runChangeCallback` is
still false and nothing fires there; instead lines 346-348 issue a reload of
the recorded `params.library`, and it is that second schema callback (line
421-422, with the list now present) that invokes the deferred callback.  The
flag was false at every step, so "still eventually fires (via the run once
ready flag)" is wrong about the mechanism: the flag is dead code. -/
theorem c8_counterexample :
    c8r1.2.2.1 = some JsErr.typeError
    ∧ c8r1.1.runChangeCallback = false
    ∧ change (some 0) c8r1.1 = .ok (c8s2, [])
    ∧ c8r3.s.runChangeCallback = false
    ∧ c8r3.fired = []
    ∧ c8r3.fetches = [{ name := "H5P.X 1.0", preserve := true }]
    ∧ c8r4.2.2.1 = none
    ∧ c8r4.2.2.2 = [(0, some c8d)] :=
  ⟨rfl, rfl, rfl, rfl, rfl, rfl, rfl, rfl⟩

/-- C8 amended: `change(callback)` with an argument defers the callback;
`change()` with no argument looks up the descriptor whose uberName equals the
current library and invokes all deferred callbacks with it in registration
order; and a callback registered after a load completed while the library
list was still missing still eventually fires — not via the run-once-ready
flag (the line that would set it is unreachable, because that same callback
path throws first), but because the load has already recorded
`params.library`, so `librariesLoaded` issues a reload of it (lines 346-348,
preserving the registered callbacks) and the reload callback runs `change()`
once the list is present. -/
theorem c8_change_spec :
    (∀ (c : Nat) (s : LibState),
      change (some c) s = .ok ({ s with changes := s.changes ++ [c] }, []))
    ∧ (∀ (s : LibState) (libs : List LibDesc), s.libraries = some libs →
        change none s = .ok (s, s.changes.map fun c =>
          (c, libs.find? fun d => decide (s.currentLibrary = some d.uberName))))
    ∧ (∀ em nm pv uu mf nc (s : LibState) (ui : UI) libs, s.libraries = some libs →
        (ui.hasLocalStorage = true → ∃ b, ui.copyButton = some b) →
        (loadLibraryCallback em nm pv uu mf nc s ui).2.2.1 = none
        ∧ (loadLibraryCallback em nm pv uu mf nc s ui).2.2.2 =
            s.changes.map fun c =>
              (c, libs.find? fun d => decide ((some nm : Option String) = some d.uberName)))
    ∧ (∀ ll clip s ui, (librariesLoaded ll clip s ui).s.changes = s.changes)
    ∧ (∀ (nm : String) ll clip (s : LibState) (ui : UI), ¬ ll.length = 1 →
        ui.hasLocalStorage = false → s.runChangeCallback = false →
        pmLookup "library" s.paramsObj = some (JsVal.str nm) → ¬ nm = "-" →
        (librariesLoaded ll clip s ui).fetches = [{ name := nm, preserve := true }]
        ∧ (librariesLoaded ll clip s ui).s.libraries = some ll) := by
  refine ⟨fun c s => rfl, ?_, ?_, librariesLoaded_changes, ?_⟩
  · intro s libs h
    simp only [change, h]
    rfl
  · intro em nm pv uu mf nc s ui libs hlibs hw
    have hfms : findLibraryMetadataSettings em nm
        { s with currentLibrary := some nm,
                 paramsObj := cbParams nm pv uu s.paramsObj } =
        .ok { disable := !em nm, disableExtraTitleField := false } := by
      simp [findLibraryMetadataSettings, hlibs]
    cases hls : ui.hasLocalStorage with
    | false =>
      simp only [loadLibraryCallback, hfms]
      simp [hls, hlibs, runChangesWith]
    | true =>
      obtain ⟨b, hb⟩ := hw hls
      have htc : toggleCopyDisabled false ui =
          .ok (if b then { ui with copyDisabled := false } else ui) := by
        simp [toggleCopyDisabled, hb]
      simp only [loadLibraryCallback, hfms]
      simp [hls, htc, hlibs, runChangesWith]
  · intro nm ll clip s ui h1 h2 h3 h4 h5
    simp only [librariesLoaded, llTail, loadLibraryV]
    rw [if_neg h1]
    simp [h2, h3, h4]
    constructor
    · rw [(loadLibrary_fetch_of_ne nm true _ _ h5).2]
      rfl
    · rw [(loadLibrary_state_preserves nm true _ _).2.2.1]

/-- C8 witness: the amended behavior at concrete inputs — a deferred
registration, the reload request issued by `librariesLoaded` for the recorded
`params.library`, and the deferred callback fired by the reload callback with
the matching descriptor. -/
theorem c8_witness :
    change (some 0) c8s0 = .ok ({ c8s0 with changes := [0] }, [])
    ∧ (librariesLoaded [c8d, c8dB] none c8s2 c8ui).fetches
        = [{ name := "H5P.X 1.0", preserve := true }]
    ∧ (loadLibraryCallback (fun _ => true) "H5P.X 1.0" true "uuid-2" ⟨none⟩ []
        c8r3.s c8r3.ui).2.2.2 = [(0, some c8d)] := by
  refine ⟨c8_change_spec.1 0 c8s0, ?_, ?_⟩
  · exact (c8_change_spec.2.2.2.2 "H5P.X 1.0" [c8d, c8dB] none c8s2 c8ui
      (by decide) rfl rfl rfl (by decide)).1
  · have h := (c8_change_spec.2.2.1 (fun _ => true) "H5P.X 1.0" true "uuid-2" ⟨none⟩ []
      c8r3.s c8r3.ui [c8d, c8dB] (by rfl) (fun hl => absurd hl (by decide))).2
    rw [h]
    rfl

/-! ### Claim C9 -/

/-- C9: `findLibraryMetadataSettings` compares each descriptor uberName with
`self.libraryName`, a property that no operation of the component ever
assigns (it is `none` at construction and preserved by every modelled
operation), so the loop never selects a descriptor and the function always
returns the default object `{disable: !ns.enableMetadata(libraryName),
disableExtraTitleField: false}`. -/
theorem c9_find_metadata_default :
    (∀ (em : String → Bool) (ln : String) (s : LibState) (libs : List LibDesc),
      s.libraries = some libs → s.libraryName = none →
      ((libs.find? fun d => decide (s.libraryName = some d.uberName)) = none
        ∧ findLibraryMetadataSettings em ln s =
            .ok { disable := !em ln, disableExtraTitleField := false }))
    ∧ (∀ p a fo, (initState p a fo).libraryName = none)
    ∧ (∀ s, (removeChildren s).libraryName = s.libraryName)
    ∧ (∀ nm pv s ui, (loadLibrary nm pv s ui).1.libraryName = s.libraryName)
    ∧ (∀ em nm pv uu mf nc s ui,
        (loadLibraryCallback em nm pv uu mf nc s ui).1.libraryName = s.libraryName)
    ∧ (∀ ll clip s ui, (librariesLoaded ll clip s ui).s.libraryName = s.libraryName)
    ∧ (∀ clip cf s ui, (replaceContent clip cf s ui).s.libraryName = s.libraryName) := by
  refine ⟨?_, fun p a fo => rfl, removeChildren_libraryName,
    fun nm pv s ui => (loadLibrary_state_preserves nm pv s ui).2.2.2.2.2.2.1,
    fun em nm pv uu mf nc s ui =>
      (loadLibraryCallback_state_preserves em nm pv uu mf nc s ui).2.1,
    fun ll clip s ui => (librariesLoaded_state_preserves ll clip s ui).2,
    fun clip cf s ui => (replaceContent_state_preserves clip cf s ui).2⟩
  intro em ln s libs hlibs hname
  constructor
  · simp [List.find?_eq_none, hname]
  · simp [findLibraryMetadataSettings, hlibs]

def c9d : LibDesc :=
  { uberName := "H5P.A 1.0"
    title := some "A"
    restricted := none
    metadata := some { disable := false, disableExtraTitleField := true } }

def c9s : LibState := { initState none 0 false with libraries := some [c9d] }

/-- C9 witness: even a descriptor carrying its own metadata settings is
ignored; the default object is returned. -/
theorem c9_witness :
    findLibraryMetadataSettings (fun _ => false) "H5P.A 1.0" c9s =
      .ok { disable := true, disableExtraTitleField := false } :=
  (c9_find_metadata_default.1 (fun _ => false) "H5P.A 1.0" c9s _ rfl rfl).2

/-! ### Claim C10 -/

def c10s : LibState := initState none 0 false

/-- C10 counterexample: when `window.localStorage` is available but copy and
paste is disabled for the ancestor content type, the buttons are never
created in the DOM (`$copyButton` is an empty jQuery set, modelled
`some false`), yet selecting the none sentinel completes without throwing —
contradicting "when the buttons were never created, selecting none throws". -/
theorem c10_counterexample :
    (appendToUI true false).copyButton = some false
    ∧ (loadLibrary "-" true c10s (appendToUI true false)).2.2.1 = none := by
  exact ⟨rfl, rfl⟩

/-- C10 amended: `loadLibrary` with the none sentinel dereferences
`this.$copyButton` unconditionally (line 370); it throws a TypeError exactly
when `window.localStorage` was unavailable, so `$copyButton` was never
assigned — and even then only after the four parameter keys have already been
deleted — while it completes without throwing whenever localStorage is
available, even if the buttons were never added to the DOM; the post-load
branch (line 406) guards the same access behind a localStorage check and
never throws on it. -/
theorem c10_copy_button (pv : Bool) (s : LibState) (ui : UI) :
    (ui.copyButton = none →
      (loadLibrary "-" pv s ui).2.2.1 = some JsErr.typeError
      ∧ pmLookup "library" (loadLibrary "-" pv s ui).1.paramsObj = none
      ∧ pmLookup "params" (loadLibrary "-" pv s ui).1.paramsObj = none
      ∧ pmLookup "subContentId" (loadLibrary "-" pv s ui).1.paramsObj = none
      ∧ pmLookup "metadata" (loadLibrary "-" pv s ui).1.paramsObj = none)
    ∧ (∀ b, ui.copyButton = some b → (loadLibrary "-" pv s ui).2.2.1 = none)
    ∧ (∀ hasLS en, (appendToUI hasLS en).copyButton
        = if hasLS then some (hasLS && en) else none)
    ∧ (∀ em nm uu mf nc libs, s.libraries = some libs → ui.hasLocalStorage = false →
        (loadLibraryCallback em nm pv uu mf nc s ui).2.2.1 = none) := by
  refine ⟨?_, fun b hb => (loadLibrary_none_ok pv s ui b hb).1, fun hasLS en => rfl, ?_⟩
  · intro h
    refine ⟨(loadLibrary_none_throws pv s ui h).1, ?_⟩
    rw [loadLibrary_none_paramsObj]
    simp [pmLookup_pmDelete]
  · intro em nm uu mf nc libs hlibs hls
    have hfms : findLibraryMetadataSettings em nm
        { s with currentLibrary := some nm,
                 paramsObj := cbParams nm pv uu s.paramsObj } =
        .ok { disable := !em nm, disableExtraTitleField := false } := by
      simp [findLibraryMetadataSettings, hlibs]
    simp only [loadLibraryCallback, hfms]
    simp [hls, hlibs]

/-- C10 witness: without localStorage, selecting none throws; with
localStorage it does not. -/
theorem c10_witness :
    (loadLibrary "-" true c10s (appendToUI false false)).2.2.1 = some JsErr.typeError
    ∧ (loadLibrary "-" true c10s (appendToUI true true)).2.2.1 = none := by
  constructor
  · exact ((c10_copy_button true c10s (appendToUI false false)).1 rfl).1
  · exact (c10_copy_button true c10s (appendToUI true true)).2.1 true rfl

end H5PLib
